import Mathlib

/-!
Verification of the LeetTrack review-scheduling engine and the frontend
today page.

The repository's sources provide the frontend today page
(frontend/app/today/page.tsx) directly; the backend review engine
(interval calculator, review state machine, queue builder) is exercised by
that page through the HTTP API but its implementation files are not part
of the source tree given here, so those components are modelled from the
specification, as marked on each definition.

Timestamps are modelled as natural numbers counting days, so that
`now + intervalDays` is plain addition and `daysBetween` is truncated
subtraction.  Fractional interval arithmetic (`factor = 1.3 + 0.4 * w`)
is embedded exactly: `ceil (p * (13 + 4*w) / 10)` over the rationals
equals `(p * (13 + 4*w) + 9) / 10` in natural-number division, which is
the form used by the executable definition.
-/

/-- Modelled from the spec: the closed Confidence Model enumeration
(spec section 4.1), five ordered levels. -/
inductive Confidence where
  | confused
  | struggled
  | understood
  | confident
  | mastered
deriving DecidableEq, Repr

/-- Modelled from the spec: numeric weight of each confidence level
(spec section 4.1 table). -/
def confidenceWeight : Confidence → Nat
  | .confused => 0
  | .struggled => 1
  | .understood => 2
  | .confident => 3
  | .mastered => 4

/-- Modelled from the spec: base interval in days applied on the first
rating, `timesReviewed == 0` (spec section 4.2). -/
def baseInterval : Confidence → Nat
  | .confused => 1
  | .struggled => 2
  | .understood => 4
  | .confident => 7
  | .mastered => 14

/-- Modelled from the spec: the Interval Calculator
`nextInterval(confidence, timesReviewed, previousIntervalDays)`
(spec section 4.2).  The growth factor `1.3 + 0.4 * weight` is embedded
exactly as the rational `(13 + 4*w)/10`, and rounding up to the nearest
whole day becomes the natural-number expression `(p*(13+4*w) + 9) / 10`
(see `ceil_natCast_div_ten` below for the equivalence). -/
def nextInterval (c : Confidence) (timesReviewed : Nat) (previousIntervalDays : Nat) : Nat :=
  if timesReviewed = 0 then baseInterval c
  else if c = .confused then 1
  else min 180 ((previousIntervalDays * (13 + 4 * confidenceWeight c) + 9) / 10)

/-- Reference definition following the words of the claim: base interval
when `timesReviewed == 0`; `1` for `confused` afterwards; otherwise
`min(180, ceil(previousIntervalDays * (1.3 + 0.4 * weight)))` with the
ceiling taken over the rationals. -/
def refNextInterval (c : Confidence) (timesReviewed : Nat) (previousIntervalDays : Nat) : Nat :=
  if timesReviewed = 0 then baseInterval c
  else if c = .confused then 1
  else
    min 180 (Int.toNat (Int.ceil
      ((previousIntervalDays : ℚ) * (13 / 10 + 4 / 10 * (confidenceWeight c : ℚ)))))

lemma ceil_natCast_div_ten (a : Nat) :
    Int.ceil ((a : ℚ) / 10) = ((a + 9) / 10 : Nat) := by
  obtain ⟨n, hn⟩ : ∃ n, (a + 9) / 10 = n := ⟨_, rfl⟩
  rw [hn]
  have h1 : a ≤ 10 * n := by omega
  have h2 : 10 * n < a + 10 := by omega
  have h1q : (a : ℚ) ≤ 10 * (n : ℚ) := by exact_mod_cast h1
  have h2q : 10 * (n : ℚ) < (a : ℚ) + 10 := by exact_mod_cast h2
  rw [Int.ceil_eq_iff]
  constructor
  · push_cast
    linarith
  · push_cast
    linarith

lemma growth_ceil_eq (w p : Nat) :
    Int.toNat (Int.ceil ((p : ℚ) * (13 / 10 + 4 / 10 * (w : ℚ))))
      = (p * (13 + 4 * w) + 9) / 10 := by
  have hq : (p : ℚ) * (13 / 10 + 4 / 10 * (w : ℚ)) = ((p * (13 + 4 * w) : Nat) : ℚ) / 10 := by
    push_cast
    ring
  rw [hq, ceil_natCast_div_ten, Int.toNat_natCast]

/-- C1: `nextInterval` agrees with the reference definition everywhere:
base intervals 1/2/4/7/14 on the first rating, a reset to 1 for
`confused` afterwards, and otherwise
`min(180, ceil(previousIntervalDays * (1.3 + 0.4*weight)))`; in
particular `nextInterval mastered 2 7 = ceil(7 * 2.9) = 21`. -/
theorem C1_nextInterval_matches_reference :
    (∀ (c : Confidence) (t p : Nat), nextInterval c t p = refNextInterval c t p)
    ∧ nextInterval Confidence.mastered 2 7 = 21 := by
  constructor
  · intro c t p
    unfold nextInterval refNextInterval
    by_cases ht : t = 0
    · rw [if_pos ht, if_pos ht]
    · rw [if_neg ht, if_neg ht]
      by_cases hc : c = Confidence.confused
      · rw [if_pos hc, if_pos hc]
      · rw [if_neg hc, if_neg hc, growth_ceil_eq]
  · decide

lemma one_le_nextInterval (c : Confidence) (t p : Nat) (h : t = 0 ∨ 1 ≤ p) :
    1 ≤ nextInterval c t p := by
  unfold nextInterval
  by_cases ht : t = 0
  · rw [if_pos ht]
    cases c <;> simp [baseInterval]
  · rw [if_neg ht]
    by_cases hc : c = Confidence.confused
    · rw [if_pos hc]
    · rw [if_neg hc]
      have hp : 1 ≤ p := h.resolve_left ht
      have hw : 13 ≤ 13 + 4 * confidenceWeight c := by omega
      have h13 : 1 * 13 ≤ p * (13 + 4 * confidenceWeight c) := Nat.mul_le_mul hp hw
      have hdiv : 1 ≤ (p * (13 + 4 * confidenceWeight c) + 9) / 10 :=
        (Nat.le_div_iff_mul_le (by norm_num)).mpr (by omega)
      exact le_min (by norm_num) hdiv

lemma nextInterval_le_180 (c : Confidence) (t p : Nat) :
    nextInterval c t p ≤ 180 := by
  unfold nextInterval
  by_cases ht : t = 0
  · rw [if_pos ht]
    cases c <;> simp [baseInterval]
  · rw [if_neg ht]
    by_cases hc : c = Confidence.confused
    · rw [if_pos hc]
      norm_num
    · rw [if_neg hc]
      exact min_le_left _ _

/-- C7 counterexample: at `previousIntervalDays = 0` with `timesReviewed = 1`
and level `struggled`, the growth branch computes `ceil(0 * 1.7) = 0`,
so the result is not in `[1, 180]`. -/
theorem C7_counterexample :
    ¬ (1 ≤ nextInterval Confidence.struggled 1 0
       ∧ nextInterval Confidence.struggled 1 0 ≤ 180) := by
  decide

/-- C7 (amended): for every confidence level, every `timesReviewed`, and every
`previousIntervalDays ≥ 1` — which is the only way the state machine ever
calls it, since `previousIntervalDays` is produced by `max 1 _` — the result
of `nextInterval` is an integer number of days in the closed range `[1, 180]`. -/
theorem C7_interval_range (c : Confidence) (t p : Nat) (hp : 1 ≤ p) :
    1 ≤ nextInterval c t p ∧ nextInterval c t p ≤ 180 :=
  ⟨one_le_nextInterval c t p (Or.inr hp), nextInterval_le_180 c t p⟩

/-- Witness for C7: the range bounds hold at the concrete input
`(mastered, 3, 7)`. -/
theorem C7_interval_range_witness :
    1 ≤ 7 ∧ (1 ≤ nextInterval Confidence.mastered 3 7
             ∧ nextInterval Confidence.mastered 3 7 ≤ 180) :=
  ⟨by decide, C7_interval_range Confidence.mastered 3 7 (by decide)⟩

/-- Modelled from the spec: the persisted part of a ReviewRecord
(spec section 3): confidence (or unset), timesReviewed, lastReviewed,
nextReview, solvedAt.  `userQuestionId` and `questionId` live in the store
key and the read-only catalog and are not part of the mutable state. -/
structure ReviewRecord where
  confidence : Option Confidence
  timesReviewed : Nat
  lastReviewed : Option Nat
  nextReview : Option Nat
  solvedAt : Nat
deriving DecidableEq, Repr

/-- Modelled from the spec: record created when a question is first marked
solved — `solvedAt` set, confidence unset, `nextReview` absent,
`timesReviewed = 0` (spec section 3, Lifecycle). -/
def initRecord (t0 : Nat) : ReviewRecord :=
  { confidence := none, timesReviewed := 0, lastReviewed := none,
    nextReview := none, solvedAt := t0 }

/-- Modelled from the spec: whole days elapsed from `a` to `b`; with
day-granularity timestamps this is truncated subtraction, and composed with
`max 1 _` below it agrees with `max(1, b - a)` over the integers. -/
def daysBetween (a b : Nat) : Nat := b - a

/-- Modelled from the spec: state predicate `NeedsRating` — confidence
unset, `nextReview` absent (spec section 4.3). -/
def isNeedsRating (r : ReviewRecord) : Bool :=
  r.confidence.isNone && r.nextReview.isNone

/-- Modelled from the spec: state predicate `Due` — confidence set and
`nextReview ≤ now` (spec section 4.3). -/
def isDue (r : ReviewRecord) (now : Nat) : Bool :=
  r.confidence.isSome &&
    (match r.nextReview with
     | some nr => decide (nr ≤ now)
     | none => false)

/-- Modelled from the spec: state predicate `Scheduled` — confidence set and
`nextReview` strictly in the future (spec section 4.3). -/
def isScheduled (r : ReviewRecord) (now : Nat) : Bool :=
  r.confidence.isSome &&
    (match r.nextReview with
     | some nr => decide (now < nr)
     | none => false)

/-- Modelled from the spec: the error taxonomy of section 7. -/
inductive EngineError where
  | InvalidStateError
  | NotFoundError
  | ProviderUnavailableError
  | ConcurrentUpdateError
deriving DecidableEq, Repr

/-- Modelled from the spec: the initial-rating transition
`rateQuestion` (spec section 4.3) on a single record.  Legal only from
`NeedsRating`; sets confidence and `nextReview = now + nextInterval c 0 0`;
leaves `timesReviewed`, `lastReviewed` and `solvedAt` untouched. -/
def rateQuestion (r : ReviewRecord) (c : Confidence) (now : Nat) :
    Except EngineError ReviewRecord :=
  if isNeedsRating r then
    Except.ok { r with confidence := some c,
                       nextReview := some (now + nextInterval c 0 0) }
  else
    Except.error EngineError.InvalidStateError

/-- Modelled from the spec: the review-completion transition
`completeReview` (spec section 4.3) on a single record.  Legal from `Due`
or `Scheduled` (both have confidence set and `nextReview` present); an
optional confidence replaces the stored one, otherwise the stored one is
reused; `previousIntervalDays = max 1 (daysBetween (lastReviewed ?? solvedAt)
nextReview)`; sets `lastReviewed = now`, `nextReview = now + interval`, and
increments `timesReviewed`. -/
def completeReview (r : ReviewRecord) (oc : Option Confidence) (now : Nat) :
    Except EngineError ReviewRecord :=
  match r.confidence, r.nextReview with
  | some c0, some nr =>
      Except.ok { r with confidence := some (oc.getD c0),
                         lastReviewed := some now,
                         nextReview := some (now + nextInterval (oc.getD c0) r.timesReviewed
                           (max 1 (daysBetween (r.lastReviewed.getD r.solvedAt) nr))),
                         timesReviewed := r.timesReviewed + 1 }
  | _, _ => Except.error EngineError.InvalidStateError

lemma not_needsRating_of_due_or_scheduled {r : ReviewRecord} {now : Nat}
    (h : isDue r now = true ∨ isScheduled r now = true) :
    isNeedsRating r = false := by
  rcases hcf : r.confidence with _ | c0
  · exfalso
    rcases h with h | h <;> simp [isDue, isScheduled, hcf] at h
  · simp [isNeedsRating, hcf]

/-- C2: for every record in state `Due` or `Scheduled`, `completeReview`
succeeds, sets `lastReviewed = now`, `nextReview = now + intervalDays`, and
increments `timesReviewed` by exactly one, where
`intervalDays = nextInterval confidence timesReviewed previousIntervalDays`
and `previousIntervalDays = max 1 (daysBetween (lastReviewed ?? solvedAt)
nextReview)`; a supplied confidence replaces the stored one, otherwise the
stored one is reused. -/
theorem C2_completeReview_spec (r : ReviewRecord) (oc : Option Confidence) (now : Nat)
    (h : isDue r now = true ∨ isScheduled r now = true) :
    ∃ c0 nr0, r.confidence = some c0 ∧ r.nextReview = some nr0 ∧
      completeReview r oc now = Except.ok
        { confidence := some (oc.getD c0),
          timesReviewed := r.timesReviewed + 1,
          lastReviewed := some now,
          nextReview := some (now + nextInterval (oc.getD c0) r.timesReviewed
            (max 1 (daysBetween (r.lastReviewed.getD r.solvedAt) nr0))),
          solvedAt := r.solvedAt } := by
  rcases hC : r.confidence with _ | c0
  · exfalso
    rcases h with h | h <;> simp [isDue, isScheduled, hC] at h
  · rcases hN : r.nextReview with _ | nr0
    · exfalso
      rcases h with h | h <;> simp [isDue, isScheduled, hN] at h
    · exact ⟨c0, nr0, rfl, rfl, by simp [completeReview, hC, hN]⟩

/-- A concrete `Due` record realising the spec scenario: `timesReviewed = 2`,
previous interval `17 - 10 = 7` days. -/
def rDueEx : ReviewRecord :=
  { confidence := some Confidence.confident, timesReviewed := 2,
    lastReviewed := some 10, nextReview := some 17, solvedAt := 0 }

/-- Witness for C2, reproducing the spec scenario: completing the due record
`rDueEx` at `now = 20` rated `mastered` yields `intervalDays = ceil(7*2.9) =
21`, `timesReviewed = 3`, `nextReview = 20 + 21 = 41`. -/
theorem C2_completeReview_spec_witness :
    (isDue rDueEx 20 = true ∨ isScheduled rDueEx 20 = true)
    ∧ (∃ c0 nr0, rDueEx.confidence = some c0 ∧ rDueEx.nextReview = some nr0 ∧
        completeReview rDueEx (some Confidence.mastered) 20 = Except.ok
          { confidence := some ((some Confidence.mastered).getD c0),
            timesReviewed := rDueEx.timesReviewed + 1,
            lastReviewed := some 20,
            nextReview := some (20 + nextInterval ((some Confidence.mastered).getD c0)
              rDueEx.timesReviewed
              (max 1 (daysBetween (rDueEx.lastReviewed.getD rDueEx.solvedAt) nr0))),
            solvedAt := rDueEx.solvedAt })
    ∧ completeReview rDueEx (some Confidence.mastered) 20 = Except.ok
        { confidence := some Confidence.mastered, timesReviewed := 3,
          lastReviewed := some 20, nextReview := some 41, solvedAt := 0 } :=
  ⟨Or.inl (by decide),
   C2_completeReview_spec rDueEx (some Confidence.mastered) 20 (Or.inl (by decide)),
   by rfl⟩

/-- C3: for every record in state `NeedsRating`, `rateQuestion` succeeds,
sets the confidence, sets `nextReview = now + nextInterval c 0 0`, and leaves
`timesReviewed`, `lastReviewed` and `solvedAt` unchanged. -/
theorem C3_rateQuestion_spec (r : ReviewRecord) (c : Confidence) (now : Nat)
    (h : isNeedsRating r = true) :
    rateQuestion r c now = Except.ok
      { confidence := some c,
        timesReviewed := r.timesReviewed,
        lastReviewed := r.lastReviewed,
        nextReview := some (now + nextInterval c 0 0),
        solvedAt := r.solvedAt } := by
  rw [rateQuestion, if_pos h]

/-- Witness for C3, reproducing the spec scenario: a record solved at
`t0 = 100` and rated `confident` at `t0` gets `nextReview = t0 + 7 = 107`,
with `timesReviewed` still `0` and `lastReviewed` still absent. -/
theorem C3_rateQuestion_spec_witness :
    isNeedsRating (initRecord 100) = true
    ∧ rateQuestion (initRecord 100) Confidence.confident 100 = Except.ok
        { confidence := some Confidence.confident, timesReviewed := 0,
          lastReviewed := none, nextReview := some 107, solvedAt := 100 } :=
  ⟨by decide, C3_rateQuestion_spec (initRecord 100) Confidence.confident 100 (by decide)⟩

/-- Modelled from the spec: the Store contract (spec section 6) — a partial
map from `userQuestionId` to the persisted record. -/
def Store : Type := Nat → Option ReviewRecord

/-- Modelled from the spec: the single atomic per-record write of the
store contract. -/
def Store.update (s : Store) (qid : Nat) (r : ReviewRecord) : Store :=
  fun j => if j = qid then some r else s j

/-- Modelled from the spec: `rateQuestion` as exposed over the store — the
new state is computed in full and written with one `Store.update`; on any
failure the prior store is returned untouched. -/
def rateQuestionOp (s : Store) (qid : Nat) (c : Confidence) (now : Nat) :
    Except EngineError ReviewRecord × Store :=
  match s qid with
  | none => (Except.error EngineError.NotFoundError, s)
  | some r =>
    match rateQuestion r c now with
    | Except.ok r' => (Except.ok r', s.update qid r')
    | Except.error e => (Except.error e, s)

/-- Modelled from the spec: `completeReview` as exposed over the store,
with the same atomic-write discipline. -/
def completeReviewOp (s : Store) (qid : Nat) (oc : Option Confidence) (now : Nat) :
    Except EngineError ReviewRecord × Store :=
  match s qid with
  | none => (Except.error EngineError.NotFoundError, s)
  | some r =>
    match completeReview r oc now with
    | Except.ok r' => (Except.ok r', s.update qid r')
    | Except.error e => (Except.error e, s)

/-- C4: illegal transitions fail with `InvalidStateError` and leave the
persisted store unchanged: rating an already `Scheduled` or `Due` record
fails, completing a review on a `NeedsRating` record fails, and every
failing call of either operation returns the store exactly as it was. -/
theorem C4_invalid_transitions_atomic (s : Store) (qid : Nat) (c : Confidence)
    (oc : Option Confidence) (now : Nat) (r : ReviewRecord) (hs : s qid = some r) :
    ((isScheduled r now = true ∨ isDue r now = true) →
        rateQuestionOp s qid c now = (Except.error EngineError.InvalidStateError, s))
    ∧ (isNeedsRating r = true →
        completeReviewOp s qid oc now = (Except.error EngineError.InvalidStateError, s))
    ∧ (∀ e, (rateQuestionOp s qid c now).1 = Except.error e →
        (rateQuestionOp s qid c now).2 = s)
    ∧ (∀ e, (completeReviewOp s qid oc now).1 = Except.error e →
        (completeReviewOp s qid oc now).2 = s) := by
  refine ⟨?_, ?_, ?_, ?_⟩
  · intro h
    have hF : isNeedsRating r = false := not_needsRating_of_due_or_scheduled h.symm
    have hrq : rateQuestion r c now = Except.error EngineError.InvalidStateError := by
      rw [rateQuestion, if_neg (by simp [hF])]
    simp [rateQuestionOp, hs, hrq]
  · intro h
    obtain ⟨h1, h2⟩ : r.confidence = none ∧ r.nextReview = none := by
      simpa [isNeedsRating, Bool.and_eq_true, Option.isNone_iff_eq_none] using h
    have hcr : completeReview r oc now = Except.error EngineError.InvalidStateError := by
      simp [completeReview, h1]
    simp [completeReviewOp, hs, hcr]
  · intro e he
    rcases hrq : rateQuestion r c now with e' | r'
    · simp [rateQuestionOp, hs, hrq]
    · exfalso
      simp [rateQuestionOp, hs, hrq] at he
  · intro e he
    rcases hcr : completeReview r oc now with e' | r'
    · simp [completeReviewOp, hs, hcr]
    · exfalso
      simp [completeReviewOp, hs, hcr] at he

/-- A concrete `Scheduled` record: rated but not yet due at time 5. -/
def rSchedEx : ReviewRecord :=
  { confidence := some Confidence.confident, timesReviewed := 0,
    lastReviewed := none, nextReview := some 12, solvedAt := 5 }

/-- A concrete store holding a `Scheduled` record under key 1 and a
`NeedsRating` record under key 2. -/
def storeEx : Store :=
  fun j => if j = 1 then some rSchedEx else if j = 2 then some (initRecord 3) else none

/-- Witness for C4: rating the scheduled record 1, or completing a review on
the unrated record 2, fails with `InvalidStateError` and returns the store
untouched. -/
theorem C4_invalid_transitions_atomic_witness :
    storeEx 1 = some rSchedEx
    ∧ rateQuestionOp storeEx 1 Confidence.mastered 5
        = (Except.error EngineError.InvalidStateError, storeEx)
    ∧ completeReviewOp storeEx 2 none 5
        = (Except.error EngineError.InvalidStateError, storeEx) :=
  ⟨rfl,
   (C4_invalid_transitions_atomic storeEx 1 Confidence.mastered none 5 rSchedEx rfl).1
     (Or.inl (by decide)),
   (C4_invalid_transitions_atomic storeEx 2 Confidence.mastered none 5 (initRecord 3) rfl).2.1
     (by decide)⟩

/-- C8: no successful transition ever produces a `NeedsRating` record: the
result of every successful `rateQuestion` and every successful
`completeReview` has its confidence set and its `nextReview` present, so once
the initial rating has set the confidence it never returns to unset and
`nextReview` never returns to absent under any later transition. -/
theorem C8_no_return_to_needsRating (r : ReviewRecord) (c : Confidence)
    (oc : Option Confidence) (now : Nat) (r' : ReviewRecord) :
    (rateQuestion r c now = Except.ok r' →
        r'.confidence ≠ none ∧ r'.nextReview ≠ none ∧ isNeedsRating r' = false)
    ∧ (completeReview r oc now = Except.ok r' →
        r'.confidence ≠ none ∧ r'.nextReview ≠ none ∧ isNeedsRating r' = false) := by
  constructor
  · intro h
    by_cases hN : isNeedsRating r = true
    · rw [rateQuestion, if_pos hN] at h
      injection h with h'
      subst h'
      simp [isNeedsRating]
    · rw [rateQuestion, if_neg hN] at h
      simp at h
  · intro h
    rcases hC : r.confidence with _ | c0
    · simp [completeReview, hC] at h
    · rcases hNr : r.nextReview with _ | nr0
      · simp [completeReview, hC, hNr] at h
      · simp only [completeReview, hC, hNr] at h
        injection h with h'
        subst h'
        simp [isNeedsRating]

/-- The record produced by rating the question solved at time 0 as
`confident` at time 0. -/
def rRatedEx : ReviewRecord :=
  { confidence := some Confidence.confident, timesReviewed := 0,
    lastReviewed := none, nextReview := some 7, solvedAt := 0 }

/-- Witness for C8: the record produced by the concrete initial rating has
confidence set and `nextReview` present, hence is not `NeedsRating`. -/
theorem C8_no_return_to_needsRating_witness :
    rRatedEx.confidence ≠ none ∧ rRatedEx.nextReview ≠ none
    ∧ isNeedsRating rRatedEx = false :=
  (C8_no_return_to_needsRating (initRecord 0) Confidence.confident none 0 rRatedEx).1
    (by rfl)

/-- Modelled from the spec: the records reachable from creation by any
sequence of successful transitions, under a forward-moving clock — the
second index is the time of the most recent event (the solve itself for a
fresh record), and each transition happens at a time `now` no earlier than
the previous event, as transitions are user actions that occur in real
time after the solve. -/
inductive Reach : ReviewRecord → Nat → Prop where
  | init (t0 : Nat) : Reach (initRecord t0) t0
  | rate {r : ReviewRecord} {t : Nat} (c : Confidence) {now : Nat} {r' : ReviewRecord}
      (hr : Reach r t) (hle : t ≤ now)
      (hok : rateQuestion r c now = Except.ok r') : Reach r' now
  | complete {r : ReviewRecord} {t : Nat} (oc : Option Confidence) {now : Nat}
      {r' : ReviewRecord} (hr : Reach r t) (hle : t ≤ now)
      (hok : completeReview r oc now = Except.ok r') : Reach r' now

lemma reach_strong_inv {r : ReviewRecord} {t : Nat} (h : Reach r t) :
    r.solvedAt ≤ t
    ∧ (∀ lr, r.lastReviewed = some lr → lr ≤ t)
    ∧ (r.timesReviewed = 0 ↔ r.lastReviewed = none)
    ∧ (∀ nr, r.nextReview = some nr → t < nr)
    ∧ (r.confidence = none → r.nextReview = none) := by
  induction h with
  | init t0 => simp [initRecord]
  | rate c hr hle hok ih =>
    rename_i r t now r'
    obtain ⟨ih1, ih2, ih3, ih4, ih5⟩ := ih
    rw [rateQuestion] at hok
    split at hok
    · injection hok with hok'
      subst hok'
      refine ⟨le_trans ih1 hle, fun lr hlr => le_trans (ih2 lr hlr) hle,
        by simpa using ih3, ?_, by simp⟩
      intro nr hnr
      simp only [Option.some.injEq] at hnr
      have hd := one_le_nextInterval c 0 0 (Or.inl rfl)
      omega
    · simp at hok
  | complete oc hr hle hok ih =>
    rename_i r t now r'
    obtain ⟨ih1, ih2, ih3, ih4, ih5⟩ := ih
    unfold completeReview at hok
    split at hok
    · rename_i c0 nr0 hC2 hN2
      injection hok with hok'
      subst hok'
      refine ⟨le_trans ih1 hle, ?_, by simp, ?_, by simp⟩
      · intro lr hlr
        simp only [Option.some.injEq] at hlr
        omega
      · intro nr hnr
        simp only [Option.some.injEq] at hnr
        have hd := one_le_nextInterval (oc.getD c0) r.timesReviewed
          (max 1 (daysBetween (r.lastReviewed.getD r.solvedAt) nr0))
          (Or.inr (le_max_left 1 _))
        omega
    · simp at hok

/-- C5: every record reachable from creation through successful
`rateQuestion`/`completeReview` sequences satisfies the data-model
invariants: `timesReviewed = 0` iff `lastReviewed` is absent; `nextReview`,
when present, is strictly after `lastReviewed` (strictly after `solvedAt`
when `lastReviewed` is absent); confidence unset implies `nextReview`
absent; and at no evaluation time is the record simultaneously in the
needing-rating queue and the due queue. -/
theorem C5_reachable_record_invariants (r : ReviewRecord) (t : Nat) (h : Reach r t) :
    (r.timesReviewed = 0 ↔ r.lastReviewed = none)
    ∧ (∀ nr, r.nextReview = some nr →
        (∀ lr, r.lastReviewed = some lr → lr < nr)
        ∧ (r.lastReviewed = none → r.solvedAt < nr))
    ∧ (r.confidence = none → r.nextReview = none)
    ∧ (∀ now, ¬(isNeedsRating r = true ∧ isDue r now = true)) := by
  obtain ⟨h1, h2, h3, h4, h5⟩ := reach_strong_inv h
  refine ⟨h3, ?_, h5, ?_⟩
  · intro nr hnr
    have htn := h4 nr hnr
    exact ⟨fun lr hlr => lt_of_le_of_lt (h2 lr hlr) htn, fun _ => lt_of_le_of_lt h1 htn⟩
  · rintro now ⟨hNR, hD⟩
    obtain ⟨hc, hn⟩ : r.confidence = none ∧ r.nextReview = none := by
      simpa [isNeedsRating, Bool.and_eq_true, Option.isNone_iff_eq_none] using hNR
    simp [isDue, hc] at hD

/-- The record after solving at 0, rating `confident` at 0, and completing
the first review at time 7 with no new confidence supplied. -/
def rReviewedEx : ReviewRecord :=
  { confidence := some Confidence.confident, timesReviewed := 1,
    lastReviewed := some 7, nextReview := some 14, solvedAt := 0 }

/-- Witness for C5: a record reached by solve, initial rating, and one
completed review satisfies all the invariants. -/
theorem C5_reachable_record_invariants_witness :
    (rReviewedEx.timesReviewed = 0 ↔ rReviewedEx.lastReviewed = none)
    ∧ (∀ nr, rReviewedEx.nextReview = some nr →
        (∀ lr, rReviewedEx.lastReviewed = some lr → lr < nr)
        ∧ (rReviewedEx.lastReviewed = none → rReviewedEx.solvedAt < nr))
    ∧ (rReviewedEx.confidence = none → rReviewedEx.nextReview = none)
    ∧ (∀ now, ¬(isNeedsRating rReviewedEx = true ∧ isDue rReviewedEx now = true)) :=
  C5_reachable_record_invariants rReviewedEx 7
    (Reach.complete none
      (Reach.rate Confidence.confident (Reach.init 0) (Nat.le_refl 0)
        (show rateQuestion (initRecord 0) Confidence.confident 0 = Except.ok rRatedEx
          from rfl))
      (Nat.zero_le 7)
      (show completeReview rRatedEx none 7 = Except.ok rReviewedEx from rfl))

/-- Ordering key for the needing-rating queue: ascending `solvedAt`. -/
def solvedAtLe (a b : ReviewRecord) : Prop := a.solvedAt ≤ b.solvedAt

instance : DecidableRel solvedAtLe :=
  fun a b => inferInstanceAs (Decidable (a.solvedAt ≤ b.solvedAt))

instance : IsTotal ReviewRecord solvedAtLe :=
  ⟨fun a b => Nat.le_total a.solvedAt b.solvedAt⟩

instance : IsTrans ReviewRecord solvedAtLe :=
  ⟨fun _ _ _ h1 h2 => Nat.le_trans h1 h2⟩

/-- Ordering key for the due queue: ascending `nextReview` (every due record
has `nextReview` present, so the `getD` default is never consulted there). -/
def nextReviewLe (a b : ReviewRecord) : Prop :=
  a.nextReview.getD 0 ≤ b.nextReview.getD 0

instance : DecidableRel nextReviewLe :=
  fun a b => inferInstanceAs (Decidable (a.nextReview.getD 0 ≤ b.nextReview.getD 0))

instance : IsTotal ReviewRecord nextReviewLe :=
  ⟨fun a b => Nat.le_total (a.nextReview.getD 0) (b.nextReview.getD 0)⟩

instance : IsTrans ReviewRecord nextReviewLe :=
  ⟨fun _ _ _ h1 h2 => Nat.le_trans h1 h2⟩

/-- Modelled from the spec: the Queue Builder `buildTodayQueues(userId, now)`
(spec section 4.4), applied to the user's record list as returned by the
store's `listByUser`.  Pure: it only filters by the state predicates and
sorts — `due` by ascending `nextReview`, `needingRating` by ascending
`solvedAt`. -/
def buildTodayQueues (rs : List ReviewRecord) (now : Nat) :
    List ReviewRecord × List ReviewRecord :=
  (List.insertionSort nextReviewLe (rs.filter (fun r => isDue r now)),
   List.insertionSort solvedAtLe (rs.filter (fun r => isNeedsRating r)))

lemma due_scheduled_exclusive (r : ReviewRecord) (now : Nat) :
    ¬(isDue r now = true ∧ isScheduled r now = true) := by
  rintro ⟨h1, h2⟩
  rcases hC : r.confidence with _ | c0 <;> rcases hN : r.nextReview with _ | nr0 <;>
    simp [isDue, isScheduled, hC, hN] at h1 h2
  omega

/-- C6: `buildTodayQueues` returns as `due` exactly the records that are
`Due` at `now`, sorted by ascending `nextReview`, and as `needingRating`
exactly the records in state `NeedsRating`, sorted by ascending `solvedAt`;
`Scheduled` records appear in neither list, no record appears in both
lists, and every returned record is an unmodified member of the input. -/
theorem C6_buildTodayQueues_correct (rs : List ReviewRecord) (now : Nat) :
    ((buildTodayQueues rs now).1.Perm (rs.filter (fun r => isDue r now))
      ∧ List.Sorted nextReviewLe (buildTodayQueues rs now).1)
    ∧ ((buildTodayQueues rs now).2.Perm (rs.filter (fun r => isNeedsRating r))
      ∧ List.Sorted solvedAtLe (buildTodayQueues rs now).2)
    ∧ (∀ r, isScheduled r now = true →
        r ∉ (buildTodayQueues rs now).1 ∧ r ∉ (buildTodayQueues rs now).2)
    ∧ (∀ r, r ∈ (buildTodayQueues rs now).1 → r ∉ (buildTodayQueues rs now).2)
    ∧ (∀ r, r ∈ (buildTodayQueues rs now).1 → r ∈ rs)
    ∧ (∀ r, r ∈ (buildTodayQueues rs now).2 → r ∈ rs) := by
  refine ⟨⟨List.perm_insertionSort _ _, List.sorted_insertionSort _ _⟩,
          ⟨List.perm_insertionSort _ _, List.sorted_insertionSort _ _⟩, ?_, ?_, ?_, ?_⟩
  · intro r hS
    refine ⟨fun hmem => ?_, fun hmem => ?_⟩
    · simp only [buildTodayQueues, List.mem_insertionSort, List.mem_filter] at hmem
      exact due_scheduled_exclusive r now ⟨hmem.2, hS⟩
    · simp only [buildTodayQueues, List.mem_insertionSort, List.mem_filter] at hmem
      have hF := not_needsRating_of_due_or_scheduled (Or.inr hS)
      exact absurd hmem.2 (by simp [hF])
  · intro r h1 h2
    simp only [buildTodayQueues, List.mem_insertionSort, List.mem_filter] at h1 h2
    have hF := not_needsRating_of_due_or_scheduled (Or.inl h1.2)
    exact absurd h2.2 (by simp [hF])
  · intro r h1
    simp only [buildTodayQueues, List.mem_insertionSort, List.mem_filter] at h1
    exact h1.1
  · intro r h1
    simp only [buildTodayQueues, List.mem_insertionSort, List.mem_filter] at h1
    exact h1.1

/-- A concrete user record list: one rated record (`rDueEx`, next review at
17), one rated record (`rSchedEx`, next review at 12), one unrated record
solved at 3. -/
def rsEx : List ReviewRecord := [rDueEx, rSchedEx, initRecord 3]

/-- Witness for C6: at `now = 11` the record `rSchedEx` (next review at 12)
is `Scheduled` and appears in neither queue; concretely the queues are
`([], [initRecord 3])`. -/
theorem C6_buildTodayQueues_correct_witness :
    isScheduled rSchedEx 11 = true
    ∧ (rSchedEx ∉ (buildTodayQueues rsEx 11).1 ∧ rSchedEx ∉ (buildTodayQueues rsEx 11).2)
    ∧ buildTodayQueues rsEx 11 = ([], [initRecord 3]) :=
  ⟨by decide,
   (C6_buildTodayQueues_correct rsEx 11).2.2.1 rSchedEx (by decide),
   by decide⟩

/-- Difficulty union type of the frontend interfaces
(frontend/app/today/page.tsx). -/
inductive Difficulty where
  | Easy
  | Medium
  | Hard
deriving DecidableEq, Repr

/-- `QuestionForReview` interface from frontend/app/today/page.tsx
(lines 12-22); nullable fields become `Option`. -/
structure QuestionForReview where
  user_question_id : Nat
  question_id : Nat
  title : String
  url : String
  difficulty : Difficulty
  confidence : String
  times_reviewed : Nat
  last_reviewed : Option String
  next_review : Option String
deriving DecidableEq, Repr

/-- `QuestionNeedingRating` interface from frontend/app/today/page.tsx
(lines 24-32). -/
structure QuestionNeedingRating where
  user_question_id : Nat
  question_id : Nat
  title : String
  url : String
  difficulty : Difficulty
  solved_at : Option String
  times_reviewed : Nat
deriving DecidableEq, Repr

/-- A topic tag entry of `DailyQuestionType`. -/
structure TopicTag where
  name : String
deriving DecidableEq, Repr

/-- `DailyQuestionType` interface from frontend/app/today/page.tsx
(lines 34-45); the `string | number` unions are modelled as `String`. -/
structure DailyQuestionType where
  titleSlug : String
  title : String
  difficulty : Difficulty
  likes : Option Nat
  dislikes : Option Nat
  content : Option String
  topicTags : Option (List TopicTag)
  questionId : Option String
  questionFrontendId : Option String
  isPaidOnly : Option Bool
deriving DecidableEq, Repr

/-- `DailyQuestionResponse` interface from frontend/app/today/page.tsx
(lines 47-51). -/
structure DailyQuestionResponse where
  date : String
  link : String
  question : DailyQuestionType
deriving DecidableEq, Repr

/-- The `{ data, error }` envelope in which the api-service wrappers resolve
every request on the today page; `error` is checked for truthiness before
`data` is used.  For the reviews and ratings endpoints the nested payload
chain (`data?.data?.reviews`, `data?.data?.questions`) is collapsed into one
`Option` of the item list, matching the `|| []` fallback in the page. -/
structure ApiResponse (α : Type) where
  data : Option α
  error : Option String
deriving DecidableEq, Repr

/-- Outcome of one of the three parallel requests awaited through
`Promise.all`: it either resolves with its `ApiResponse` envelope or
rejects (throws). -/
inductive PromiseOutcome (α : Type) where
  | resolved (v : α)
  | rejected
deriving DecidableEq, Repr

/-- The component state touched by `fetchTodaysData`: the `loading` and
`error` flags and the three data sections
(frontend/app/today/page.tsx lines 55-64). -/
structure TodayState where
  loading : Bool
  error : Option String
  reviewsDue : List QuestionForReview
  questionsNeedingRating : List QuestionNeedingRating
  dailyQuestion : Option DailyQuestionResponse
deriving DecidableEq, Repr

/-- The initial component state from the `useState` initializers:
loading, no error, empty sections. -/
def initialTodayState : TodayState :=
  { loading := true, error := none, reviewsDue := [],
    questionsNeedingRating := [], dailyQuestion := none }

/-- The page-level error message set in the catch branch of
`fetchTodaysData`. -/
def failedLoadMsg : String := "Failed to load today\x27s questions"

/-- `fetchTodaysData` from frontend/app/today/page.tsx (lines 70-117) as a
state transformer.  It sets `loading := true` and `error := none`, awaits
the three requests through `Promise.all`, and then: if all three resolved,
each response with a truthy `error` field only skips updating its own
section (the failure is logged, not surfaced), each successful response
overwrites its section, and `loading` is cleared; if any of the three
rejected, `Promise.all` rejects, the catch branch sets the page-level
error message, and no section is updated.  The `if (!user) return` guard
and the `console.error` logging carry no state and are omitted. -/
def fetchTodaysData (st : TodayState)
    (reviewsP : PromiseOutcome (ApiResponse (List QuestionForReview)))
    (ratingsP : PromiseOutcome (ApiResponse (List QuestionNeedingRating)))
    (dailyP : PromiseOutcome (ApiResponse DailyQuestionResponse)) : TodayState :=
  match reviewsP, ratingsP, dailyP with
  | .resolved rv, .resolved rt, .resolved dq =>
      let st0 := { st with loading := true, error := none }
      let st1 := if rv.error.isSome then st0
                 else { st0 with reviewsDue := rv.data.getD [] }
      let st2 := if rt.error.isSome then st1
                 else { st1 with questionsNeedingRating := rt.data.getD [] }
      let st3 := if dq.error.isSome then st2
                 else { st2 with dailyQuestion := dq.data }
      { st3 with loading := false }
  | _, _, _ =>
      { st with loading := false, error := some failedLoadMsg }

/-- C10: the three requests are awaited together and failures are handled
asymmetrically — a request that resolves with an error field only skips
updating its own section (the other sections still update, and no
page-level error is set), while a rejection of any of the three promises
sets the page-level error message and leaves every section unchanged. -/
theorem C10_fetchTodaysData_error_handling (st : TodayState)
    (rv : ApiResponse (List QuestionForReview))
    (rt : ApiResponse (List QuestionNeedingRating))
    (dq : ApiResponse DailyQuestionResponse)
    (a : PromiseOutcome (ApiResponse (List QuestionForReview)))
    (b : PromiseOutcome (ApiResponse (List QuestionNeedingRating)))
    (d : PromiseOutcome (ApiResponse DailyQuestionResponse)) :
    ((rv.error.isSome = true →
        (fetchTodaysData st (.resolved rv) (.resolved rt) (.resolved dq)).reviewsDue
          = st.reviewsDue)
    ∧ (rv.error.isSome = false →
        (fetchTodaysData st (.resolved rv) (.resolved rt) (.resolved dq)).reviewsDue
          = rv.data.getD [])
    ∧ (rt.error.isSome = true →
        (fetchTodaysData st (.resolved rv) (.resolved rt) (.resolved dq)).questionsNeedingRating
          = st.questionsNeedingRating)
    ∧ (rt.error.isSome = false →
        (fetchTodaysData st (.resolved rv) (.resolved rt) (.resolved dq)).questionsNeedingRating
          = rt.data.getD [])
    ∧ (dq.error.isSome = true →
        (fetchTodaysData st (.resolved rv) (.resolved rt) (.resolved dq)).dailyQuestion
          = st.dailyQuestion)
    ∧ (dq.error.isSome = false →
        (fetchTodaysData st (.resolved rv) (.resolved rt) (.resolved dq)).dailyQuestion
          = dq.data)
    ∧ (fetchTodaysData st (.resolved rv) (.resolved rt) (.resolved dq)).error = none)
    ∧ ((a = PromiseOutcome.rejected ∨ b = PromiseOutcome.rejected
          ∨ d = PromiseOutcome.rejected) →
        fetchTodaysData st a b d
          = { st with loading := false, error := some failedLoadMsg }) := by
  constructor
  · by_cases h1 : rv.error.isSome <;> by_cases h2 : rt.error.isSome <;>
      by_cases h3 : dq.error.isSome <;>
      simp [fetchTodaysData, h1, h2, h3]
  · intro h
    rcases a with rv' | _ <;> rcases b with rt' | _ <;> rcases d with dq' | _
    · rcases h with h | h | h <;> simp at h
    all_goals rfl

/-- A concrete item for the reviews-due section. -/
def qrEx : QuestionForReview :=
  { user_question_id := 1, question_id := 101, title := "Two Sum",
    url := "https://leetcode.com/problems/two-sum/",
    difficulty := Difficulty.Easy, confidence := "confident",
    times_reviewed := 2, last_reviewed := none, next_review := none }

/-- A concrete item for the needing-rating section. -/
def qnEx : QuestionNeedingRating :=
  { user_question_id := 2, question_id := 102, title := "Add Two Numbers",
    url := "https://leetcode.com/problems/add-two-numbers/",
    difficulty := Difficulty.Medium, solved_at := some ("2025-01-01"),
    times_reviewed := 0 }

/-- A concrete daily-challenge payload. -/
def dailyEx : DailyQuestionResponse :=
  { date := "2025-10-11", link := "https://leetcode.com/problems/word-ladder/",
    question := { titleSlug := "word-ladder", title := "Word Ladder",
                  difficulty := Difficulty.Hard, likes := none, dislikes := none,
                  content := none, topicTags := none, questionId := none,
                  questionFrontendId := none, isPaidOnly := none } }

/-- A reviews response that resolved successfully with one item. -/
def rvOkEx : ApiResponse (List QuestionForReview) :=
  { data := some [qrEx], error := none }

/-- A ratings response that resolved successfully with one item. -/
def rtOkEx : ApiResponse (List QuestionNeedingRating) :=
  { data := some [qnEx], error := none }

/-- A ratings response that resolved carrying an error field. -/
def rtErrEx : ApiResponse (List QuestionNeedingRating) :=
  { data := none, error := some ("ratings fetch failed") }

/-- A daily-challenge response that resolved successfully. -/
def dqOkEx : ApiResponse DailyQuestionResponse :=
  { data := some dailyEx, error := none }

/-- A daily-challenge response that resolved carrying an error field — the
shape in which an adapter failure or timeout is reported by the api
wrappers. -/
def dqErrEx : ApiResponse DailyQuestionResponse :=
  { data := none, error := some ("provider unavailable") }

/-- Witness for C10: with the ratings response resolved-with-error, the
reviews section still updates while the ratings section stays as it was;
and with the daily promise rejected, the state keeps its sections and gets
the page-level error message. -/
theorem C10_fetchTodaysData_error_handling_witness :
    (rvOkEx.error.isSome = false ∧ rtErrEx.error.isSome = true)
    ∧ (fetchTodaysData initialTodayState (.resolved rvOkEx) (.resolved rtErrEx)
        (.resolved dqOkEx)).reviewsDue = rvOkEx.data.getD []
    ∧ (fetchTodaysData initialTodayState (.resolved rvOkEx) (.resolved rtErrEx)
        (.resolved dqOkEx)).questionsNeedingRating
        = initialTodayState.questionsNeedingRating
    ∧ fetchTodaysData initialTodayState (.resolved rvOkEx) (.resolved rtOkEx)
        PromiseOutcome.rejected
        = { initialTodayState with loading := false, error := some failedLoadMsg } :=
  ⟨⟨rfl, rfl⟩,
   (C10_fetchTodaysData_error_handling initialTodayState rvOkEx rtErrEx dqOkEx
     PromiseOutcome.rejected PromiseOutcome.rejected PromiseOutcome.rejected).1.2.1 rfl,
   (C10_fetchTodaysData_error_handling initialTodayState rvOkEx rtErrEx dqOkEx
     PromiseOutcome.rejected PromiseOutcome.rejected PromiseOutcome.rejected).1.2.2.1 rfl,
   (C10_fetchTodaysData_error_handling initialTodayState rvOkEx rtOkEx dqOkEx
     (.resolved rvOkEx) (.resolved rtOkEx) PromiseOutcome.rejected).2
     (Or.inr (Or.inr rfl))⟩

/-- C9 counterexample: when the daily-challenge request rejects (the thrown
form of an adapter failure or timeout), the today view is NOT still
returned with `due`/`needingRating` populated — even though both of those
requests resolved successfully with data, neither section is updated and
the page-level error is set, contradicting the claim that a provider
failure never causes the whole today view to fail. -/
theorem C9_counterexample :
    rvOkEx.error = none
    ∧ rvOkEx.data = some [qrEx]
    ∧ rtOkEx.error = none
    ∧ rtOkEx.data = some [qnEx]
    ∧ (fetchTodaysData initialTodayState (.resolved rvOkEx) (.resolved rtOkEx)
        PromiseOutcome.rejected).reviewsDue = []
    ∧ (fetchTodaysData initialTodayState (.resolved rvOkEx) (.resolved rtOkEx)
        PromiseOutcome.rejected).questionsNeedingRating = []
    ∧ (fetchTodaysData initialTodayState (.resolved rvOkEx) (.resolved rtOkEx)
        PromiseOutcome.rejected).error = some failedLoadMsg :=
  ⟨rfl, rfl, rfl, rfl, rfl, rfl, rfl⟩

/-- C9 (amended): when the Daily Challenge Adapter fails by resolving with
an error field — the form in which the api wrappers report adapter
failures and timeouts — the today view is still produced with the due and
needing-rating sections populated from their responses, the daily-challenge
field left unchanged (hence absent on first load), and no page-level error;
but a rejection (thrown exception) of the daily request instead makes the
shared catch branch set the page-level error and update no section, while
still not propagating the exception to the caller. -/
theorem C9_daily_error_recovered (st : TodayState)
    (rv : ApiResponse (List QuestionForReview))
    (rt : ApiResponse (List QuestionNeedingRating))
    (dq : ApiResponse DailyQuestionResponse)
    (hrv : rv.error.isSome = false) (hrt : rt.error.isSome = false)
    (hdq : dq.error.isSome = true) :
    (fetchTodaysData st (.resolved rv) (.resolved rt) (.resolved dq)).reviewsDue
      = rv.data.getD []
    ∧ (fetchTodaysData st (.resolved rv) (.resolved rt) (.resolved dq)).questionsNeedingRating
      = rt.data.getD []
    ∧ (fetchTodaysData st (.resolved rv) (.resolved rt) (.resolved dq)).dailyQuestion
      = st.dailyQuestion
    ∧ (fetchTodaysData st (.resolved rv) (.resolved rt) (.resolved dq)).error = none := by
  simp [fetchTodaysData, hrv, hrt, hdq]

/-- Witness for C9: on first load, with the daily request resolving with an
error field and the other two succeeding, both question sections are
populated, the daily field stays absent, and no page-level error is set. -/
theorem C9_daily_error_recovered_witness :
    (rvOkEx.error.isSome = false ∧ rtOkEx.error.isSome = false
      ∧ dqErrEx.error.isSome = true)
    ∧ ((fetchTodaysData initialTodayState (.resolved rvOkEx) (.resolved rtOkEx)
          (.resolved dqErrEx)).reviewsDue = rvOkEx.data.getD []
      ∧ (fetchTodaysData initialTodayState (.resolved rvOkEx) (.resolved rtOkEx)
          (.resolved dqErrEx)).questionsNeedingRating = rtOkEx.data.getD []
      ∧ (fetchTodaysData initialTodayState (.resolved rvOkEx) (.resolved rtOkEx)
          (.resolved dqErrEx)).dailyQuestion = initialTodayState.dailyQuestion
      ∧ (fetchTodaysData initialTodayState (.resolved rvOkEx) (.resolved rtOkEx)
          (.resolved dqErrEx)).error = none) :=
  ⟨⟨rfl, rfl, rfl⟩,
   C9_daily_error_recovered initialTodayState rvOkEx rtOkEx dqErrEx rfl rfl rfl⟩
